import Mathlib

/-!
# Verification of the waffel PDF extraction pipeline

Shallow embedding of `src/waffel/data_source_pdf.py` (class `PDFDataSource`).
Python strings are modelled as Lean `String` (a list of unicode code points,
matching Python's code-point semantics of `len`/indexing); Python string
primitives (`strip`, `split`, `replace`, substring tests, the regexes used by
the module) are re-implemented below with the exact semantics the source relies
on.  Fallible external effects (PDF reading, HTTP fetches) enter as explicit
parameters: page text arrives as lists of lines, the table-of-contents fetch
result as an `Option` value, and the cached `get_wa_framework_urls` lookup used
by the URL matcher as a function parameter.
-/

namespace Waffel

/-! ## Python string primitives -/

/-- Python whitespace characters stripped by `str.strip()` (ASCII subset;
all inputs handled by the module are ASCII-spaced). -/
def isSpc (c : Char) : Bool :=
  c = ' ' || c = '\t' || c = '\n' || c = '\r' || c = '\x0b' || c = '\x0c'

/-- `str.strip()`. -/
def pyStrip (s : String) : String :=
  ⟨((s.data.dropWhile isSpc).reverse.dropWhile isSpc).reverse⟩

/-- `str.rstrip()` (the trailing-whitespace part of a `\s*$` regex match). -/
def pyRStrip (s : String) : String :=
  ⟨(s.data.reverse.dropWhile isSpc).reverse⟩

/-- Python's substring test `needle in hay`. -/
def subIn (needle hay : String) : Bool :=
  go needle.data hay.data
where
  go (n : List Char) : List Char → Bool
    | [] => n.isPrefixOf []
    | c :: cs => n.isPrefixOf (c :: cs) || go n cs

/-- Python's `str.startswith`. -/
def pyStarts (piece s : String) : Bool :=
  piece.data.isPrefixOf s.data

/-- Python's `str.endswith`. -/
def pyEnds (piece s : String) : Bool :=
  piece.data.reverse.isPrefixOf s.data.reverse

/-- Drop the last `n` characters of a string. -/
def dropRightStr (s : String) (n : Nat) : String :=
  ⟨(s.data.reverse.drop n).reverse⟩

/-- ASCII lower-casing of one character (`str.lower()` on the module's data). -/
def lowerChar (c : Char) : Char :=
  if 65 ≤ c.toNat ∧ c.toNat ≤ 90 then Char.ofNat (c.toNat + 32) else c

/-- ASCII upper-casing of one character (`str.upper()` on the module's data). -/
def upperChar (c : Char) : Char :=
  if 97 ≤ c.toNat ∧ c.toNat ≤ 122 then Char.ofNat (c.toNat - 32) else c

/-- `str.lower()`. -/
def lowerStr (s : String) : String := ⟨s.data.map lowerChar⟩

/-- `str.upper()`. -/
def upperStr (s : String) : String := ⟨s.data.map upperChar⟩

/-- `sep.join(parts)`. -/
def joinWith (sep : String) : List String → String
  | [] => ""
  | [s] => s
  | s :: rest => s ++ sep ++ joinWith sep rest

/-- Worker for `pyReplace`, with fuel bounding the scan (fuel = length of the
remaining text suffices, since every step consumes at least one character). -/
def pyReplaceGo (pat rep : List Char) : Nat → List Char → List Char
  | _, [] => []
  | 0, l => l
  | fuel + 1, c :: cs =>
    if pat.isPrefixOf (c :: cs) then
      rep ++ pyReplaceGo pat rep fuel (cs.drop (pat.length - 1))
    else
      c :: pyReplaceGo pat rep fuel cs

/-- Python's `str.replace(pat, rep)`: replace every non-overlapping occurrence,
scanning left to right (`pat` nonempty for every call site in the module). -/
def pyReplace (s pat rep : String) : String :=
  ⟨pyReplaceGo pat.data rep.data s.data.length s.data⟩

/-- Worker for `pyWords` (Python's whitespace `str.split()`), accumulating the
current word in reverse. -/
def pyWordsGo : List Char → List Char → List String
  | [], cur => if cur.isEmpty then [] else [⟨cur.reverse⟩]
  | c :: cs, cur =>
    if isSpc c then
      if cur.isEmpty then pyWordsGo cs [] else ⟨cur.reverse⟩ :: pyWordsGo cs []
    else
      pyWordsGo cs (c :: cur)

/-- Python's `str.split()` with no separator: maximal runs of non-whitespace. -/
def pyWords (s : String) : List String := pyWordsGo s.data []

/-- Decimal digits of a natural number (fuel-driven; `fuel = n + 1` is always
enough). -/
def natStrAux : Nat → Nat → List Char
  | 0, _ => []
  | fuel + 1, n =>
    if n < 10 then [Char.ofNat (48 + n)]
    else natStrAux fuel (n / 10) ++ [Char.ofNat (48 + n % 10)]

/-- Decimal rendering of a natural number (Python `str(n)` for `n ≥ 0`). -/
def natStr (n : Nat) : String := ⟨natStrAux (n + 1) n⟩

/-- Python's `f"{n:02d}"` for a non-negative number. -/
def pad2 (n : Nat) : String := if n < 10 then "0" ++ natStr n else natStr n

/-- The numeric value of a nonempty list of decimal digits (`int(...)` applied
to a `\d+` regex group). -/
def natOfDigits (ds : List Char) : Nat :=
  ds.foldl (fun n c => 10 * n + (c.toNat - 48)) 0

/-! ## Workload properties parser (`extract_workload_properties`) -/

/-- The fixed property-label vocabulary (source lines 46–48). -/
def propLabels : List String :=
  ["Workload name", "ARN", "Description", "Review owner",
   "Industry type", "Industry", "Environment", "AWS Regions",
   "Non-AWS regions", "Account IDs", "Architectural design"]

/-- Page-noise test used throughout the property scan
(`'©' in line or 'Page ' in line`). -/
def isNoiseProp (l : String) : Bool := subIn "©" l || subIn "Page " l

/-- Python dict assignment on an insertion-ordered association list: an
existing key is updated in place, a new key is appended at the end. -/
def insertProp : List (String × String) → String → String → List (String × String)
  | [], k, v => [(k, v)]
  | (k0, v0) :: rest, k, v =>
    if k0 = k then (k0, v) :: rest else (k0, v0) :: insertProp rest k v

/-- Python dict lookup (`props.get(k)` / `k in props`). -/
def lookupProp : List (String × String) → String → Option String
  | [], _ => none
  | (k0, v0) :: rest, k => if k0 = k then some v0 else lookupProp rest k

/-- The multi-line continuation loop of the ARN/Description branches (source
lines 54–59 and 64–69): consume lines until one equals a stop label (or the
lines run out), skipping page-noise lines, and also return the unconsumed
remainder (which begins with the stop label when one was hit). -/
def collectUntil (stops : List String) : List String → List String × List String
  | [] => ([], [])
  | l :: ls =>
    if l ∈ stops then ([], l :: ls)
    else
      let r := collectUntil stops ls
      (if isNoiseProp l then r.1 else l :: r.1, r.2)

/-- The property-section scan loop (source lines 38–83) over pre-stripped
nonempty lines.  The pair returned is the accumulated property mapping
together with the final value of the loop variable `current_property`
(exposed so the post-boundary parser state is observable; the Python loop
simply drops it).  Fuel bounds the recursion; `fuel = length of the lines`
is always sufficient because every step consumes at least one line. -/
def scanProps : Nat → List String → Option String → List (String × String) →
    List (String × String) × Option String
  | 0, _, cur, acc => (acc, cur)
  | _ + 1, [], cur, acc => (acc, cur)
  | fuel + 1, l :: ls, cur, acc =>
    if isNoiseProp l then (acc, cur)
    else if l ∈ propLabels then scanProps fuel ls (some l) acc
    else
      match cur with
      | some p =>
        if l ≠ "-" then
          if p = "ARN" then
            let pr := collectUntil ["Description", "Review owner"] ls
            scanProps fuel pr.2 none (insertProp acc p (joinWith "" (l :: pr.1)))
          else if p = "Description" then
            let pr := collectUntil ["Review owner", "Industry type"] ls
            scanProps fuel pr.2 none (insertProp acc p (joinWith " " (l :: pr.1)))
          else scanProps fuel ls none (insertProp acc p l)
        else
          scanProps fuel ls none
            (if p = "Non-AWS regions" ∨ p = "Account IDs" then insertProp acc p "-" else acc)
      | none => scanProps fuel ls none acc

/-- Leftmost occurrence of the regex `:(\d{12}):` inside a string (source line
89): a colon, exactly twelve decimal digits, a colon; the digit group is
returned. -/
def findAcct12 (s : String) : Option String :=
  go s.data
where
  go : List Char → Option String
    | [] => none
    | ':' :: cs =>
      let ds := cs.take 12
      if ds.length = 12 ∧ ds.all Char.isDigit ∧ (cs.drop 12).head? = some ':' then
        some ⟨ds⟩
      else go cs
    | _ :: cs => go cs

/-- Match the regex `(\d{1,2}/\d{1,2}/\d{4})` at the head of a character list,
with the regex engine's greedy-then-backtrack order for `\d{1,2}`.
Returns the matched text and the remainder after the match. -/
def matchDateAt (cs : List Char) : Option (List Char × List Char) :=
  tryLens 2 <|> tryLens 1
where
  takeDigits (n : Nat) (l : List Char) : Option (List Char × List Char) :=
    let ds := l.take n
    if ds.length = n ∧ ds.all Char.isDigit then some (ds, l.drop n) else none
  afterSlash (l : List Char) : Option (List Char) :=
    match l with
    | '/' :: r => some r
    | _ => none
  trySecond (a : List Char) (r : List Char) (n : Nat) : Option (List Char × List Char) :=
    match takeDigits n r with
    | some (b, r2) =>
      match afterSlash r2 with
      | some r3 =>
        match takeDigits 4 r3 with
        | some (c, r4) => some (a ++ '/' :: b ++ '/' :: c, r4)
        | none => none
      | none => none
    | none => none
  tryLens (n : Nat) : Option (List Char × List Char) :=
    match takeDigits n cs with
    | some (a, r1) =>
      match afterSlash r1 with
      | some r2 => trySecond a r2 2 <|> trySecond a r2 1
      | none => none
    | none => none

/-- `re.search(r'(\d{1,2}/\d{1,2}/\d{4})', s)`: leftmost date-shaped
substring. -/
def dateSearch (s : String) : Option String :=
  go s.data
where
  go : List Char → Option String
    | [] => none
    | c :: cs =>
      match matchDateAt (c :: cs) with
      | some m => some ⟨m.1⟩
      | none => go cs

/-- `re.sub(r'\d{1,2}/\d{1,2}/\d{4}', '', s)`: delete every date-shaped
substring, scanning left to right (fuel = length of the text). -/
def dateSubGo : Nat → List Char → List Char
  | _, [] => []
  | 0, l => l
  | fuel + 1, c :: cs =>
    match matchDateAt (c :: cs) with
    | some m => dateSubGo fuel m.2
    | none => c :: dateSubGo fuel cs

def dateSub (s : String) : String := ⟨dateSubGo s.data.length s.data⟩

/-- Account-ID fallback (source lines 86–91): if `Account IDs` is missing or
`"-"`, derive it from a 12-digit group in the ARN value. -/
def postAccount (props : List (String × String)) : List (String × String) :=
  if lookupProp props "Account IDs" = none ∨ lookupProp props "Account IDs" = some "-" then
    match lookupProp props "ARN" with
    | some arn =>
      match findAcct12 arn with
      | some d => insertProp props "Account IDs" d
      | none => props
    | none => props
  else props

/-- First property (in insertion order) whose value contains a date-shaped
substring, with that substring (source lines 95–96). -/
def findDateProp : List (String × String) → Option (String × String × String)
  | [] => none
  | (k, v) :: rest =>
    match dateSearch v with
    | some d => some (k, v, d)
    | none => findDateProp rest

/-- Date fallback (source lines 93–103): if no `Date` property exists, promote
the first date-shaped substring found in any value, strip it from its origin
field, and replace an emptied origin field with `"Application"`. -/
def postDate (props : List (String × String)) : List (String × String) :=
  if lookupProp props "Date" = none then
    match findDateProp props with
    | some (k, v, d) =>
      let cleaned := pyStrip (dateSub v)
      insertProp (insertProp props k (if cleaned = "" then "Application" else cleaned)) "Date" d
    | none => props
  else props

/-- Per-page preprocessing (source line 29): strip every line and drop the
empty ones. -/
def prepLines (raw : List String) : List String :=
  (raw.map pyStrip).filter (fun l => l ≠ "")

/-- Lines following the first `"Workload properties"` header of a page, if the
header occurs (source lines 32–33). -/
def findSection : List String → Option (List String)
  | [] => none
  | l :: ls => if l = "Workload properties" then some ls else findSection ls

/-- Search the first five pages for the properties section and parse it
(source lines 27–107); an absent section yields the empty mapping. -/
def findWP : List (List String) → List (String × String)
  | [] => []
  | pg :: rest =>
    match findSection (prepLines pg) with
    | some ls => postDate (postAccount (scanProps ls.length ls none []).1)
    | none => findWP rest

/-- `PDFDataSource.extract_workload_properties`, over the per-page raw text
lines of the PDF. -/
def extract_workload_properties (pages : List (List String)) : List (String × String) :=
  findWP (pages.take 5)

/-! ## Reference-URL index (`get_wa_framework_urls`) -/

/-- A node of the table-of-contents JSON tree: `{title, href, contents?}`,
where `contents` is `none` when the key is absent. -/
inductive TocNode where
  | node (title href : String) (contents : Option (List TocNode))

/-- The recursive `_process` helper (source lines 141–145): for every node,
recurse into its `contents` (when present) and then append the node's own
`(title, base_url/href)` pair. -/
def flattenToc (base : String) : List TocNode → List (String × String)
  | [] => []
  | TocNode.node t h c :: ts =>
    (match c with
     | some cs => flattenToc base cs
     | none => []) ++ ((t, base ++ "/" ++ h) :: flattenToc base ts)

/-- `PDFDataSource.get_wa_framework_urls`: the fetched top-level `contents`
array is passed explicitly, with `none` standing for any network or parse
failure (the bare `except` on source lines 148–149). -/
def get_wa_framework_urls (base_url : String) (fetched : Option (List TocNode)) :
    List (String × String) :=
  match fetched with
  | none => []
  | some contents => flattenToc base_url contents

/-! ## Improvement-item URL matcher (`match_improvement_item_to_url`) -/

/-- The normalisation applied identically to item text and titles (source
lines 167 and 171): lower-case, turn hyphens into spaces, delete spaces,
replace `"events"` by `"alerts"`. -/
def normTxt (s : String) : String :=
  pyReplace (pyReplace (pyReplace (lowerStr s) "-" " ") " " "") "events" "alerts"

/-- The first-match loop over the TOC pages (source lines 170–177): return the
url of the first pair whose title passes the containment test
`item_lower in title_lower`, else the empty string. -/
def matchLoop (item : String) : List (String × String) → String
  | [] => ""
  | (title, url) :: rest =>
    if subIn (normTxt item) (normTxt title) then url else matchLoop item rest

/-- `url.rsplit('/', 1)[0]`: everything before the last slash (the whole
string when no slash occurs). -/
def rsplitBase (url : String) : String :=
  go url.data.reverse
where
  go : List Char → String
    | [] => url
    | '/' :: pre => ⟨pre.reverse⟩
    | _ :: cs => go cs

/-- Deduplication of the candidate base URLs.  The source builds a Python
`set`, whose iteration order is unspecified; the model keeps first-occurrence
order (the order is observable only when several distinct base URLs occur on
one page). -/
def dedupFirst : List String → List String
  | [] => []
  | u :: us => u :: (dedupFirst us).filter (fun v => v ≠ u)

/-- `PDFDataSource.match_improvement_item_to_url` (source lines 151–177); the
memoised `get_wa_framework_urls` lookup is passed as `getUrls`. -/
def match_improvement_item_to_url (getUrls : String → List (String × String))
    (item_text : String) (available_urls : List String) : String :=
  let base_urls := dedupFirst
    ((available_urls.filter
        (fun u => subIn "https://docs.aws.amazon.com/wellarchitected/" u)).map rsplitBase)
  let wa_pages := (base_urls.map getUrls).flatten
  if wa_pages.isEmpty then "" else matchLoop item_text wa_pages

/-! ## Improvement-plan extraction (`extract_improvement_plan_with_smart_urls`)

A page of the PDF enters the model as its extracted text lines together with
the hyperlink URIs of its annotations (the output of
`extract_hyperlinks_from_pdf` for that page). -/

structure Choice where
  choice : String
  status : String
deriving DecidableEq

structure Stats where
  selected : Nat
  not_selected : Nat
  na : Nat
deriving DecidableEq

structure QuestionData where
  question_id : String
  pillar : Option String
  question : String
  risk_level : String
  notes : String
  improvement_plan : String
  choices : List Choice
  stats : Stats
  improvement_items : List (String × String)
deriving DecidableEq

/-- The pillars dictionary, initialised with the six fixed keys
(source lines 188–195). -/
abbrev Pillars := List (String × List QuestionData)

def initPillars : Pillars :=
  [("Operational Excellence", []), ("Security", []), ("Reliability", []),
   ("Performance Efficiency", []), ("Cost Optimization", []), ("Sustainability", [])]

/-- `pillars[current_pillar].append(question_data)` (source line 463); the key
is always one of the six initial keys when reached. -/
def appendPillar (ps : Pillars) (name : String) (qd : QuestionData) : Pillars :=
  ps.map (fun kv => if kv.1 = name then (kv.1, kv.2 ++ [qd]) else kv)

/-- The guarded append (source lines 461–463): `if current_pillar:` — a
`None` (or empty, by Python truthiness) pillar drops the question. -/
def finishQuestion (cur : Option String) (qd : QuestionData) (ps : Pillars) : Pillars :=
  match cur with
  | none => ps
  | some p => if p = "" then ps else appendPillar ps p qd

/-! ### Pass 1: pillar-tagged question headers -/

/-- `pillar_map` (source lines 214–222), with the `'Unknown'` default of
`pillar_map.get`. -/
def pillarOfAbbrev (a : String) : String :=
  if a = "OPS" then "Operational Excellence"
  else if a = "SEC" then "Security"
  else if a = "REL" then "Reliability"
  else if a = "PERF" then "Performance Efficiency"
  else if a = "COST" then "Cost Optimization"
  else if a = "SUS" then "Sustainability"
  else "Unknown"

/-- The fallback abbreviation map `pillar_abbrev_map.get(current_pillar,
'UNK')` (source lines 379–387), applied to a possibly-`None` pillar. -/
def abbrevOfPillar : Option String → String
  | some "Operational Excellence" => "OPS"
  | some "Security" => "SEC"
  | some "Reliability" => "REL"
  | some "Performance Efficiency" => "PERF"
  | some "Cost Optimization" => "COST"
  | some "Sustainability" => "SUS"
  | _ => "UNK"

/-- Try one fixed abbreviation as a case-insensitive prefix, then parse
`\s*(\d+)\.(.+)`; returns `(question number, trailing text)`. -/
def properIdTail (ab : String) (l : String) : Option (Nat × String) :=
  if (l.data.take ab.length).map upperChar = ab.data then
    let r := (l.data.drop ab.length).dropWhile isSpc
    let ds := r.takeWhile Char.isDigit
    if ds.isEmpty then none
    else
      match r.drop ds.length with
      | '.' :: rest => if rest.isEmpty then none else some (natOfDigits ds, ⟨rest⟩)
      | _ => none
  else none

/-- `re.match(r'^(OPS|SEC|REL|PERF|COST|SUS)\s*(\d+)\.(.+)', line, re.IGNORECASE)`
(source line 207).  No abbreviation is a prefix of another, so trying the
alternatives in order is exact; the abbreviation is returned upper-cased
(`group(1).upper()`). -/
def parseProperId (l : String) : Option (String × Nat × String) :=
  go ["OPS", "SEC", "REL", "PERF", "COST", "SUS"]
where
  go : List String → Option (String × Nat × String)
    | [] => none
    | ab :: abs =>
      match properIdTail ab l with
      | some (n, t) => some (ab, n, t)
      | none => go abs

/-- `' '.join(q_text.lower().split()[:4])` (source lines 225 and 267). -/
def keyWords (qt : String) : String :=
  joinWith " " ((pyWords (lowerStr qt)).take 4)

/-- The pass-1 map keyed by `(question number, first-four words)`; the dict is
modelled by consing fresh entries and looking up the most recent one
(last write wins, as in the source). -/
abbrev PillarMap := List ((Nat × String) × (String × String))

def lookupPM : PillarMap → Nat × String → Option (String × String)
  | [], _ => none
  | (k0, v0) :: rest, k => if k0 = k then some v0 else lookupPM rest k

/-- Process one line of pass 1 (source lines 204–227). -/
def pass1Line (m : PillarMap) (raw : String) : PillarMap :=
  match parseProperId (pyStrip raw) with
  | some (ab, n, t) =>
    ((n, keyWords (pyStrip t)), (pillarOfAbbrev ab, ab)) :: m
  | none => m

/-- Pass 1 over all pages (source lines 200–227). -/
def pass1 (pages : List (List String)) : PillarMap :=
  pages.foldl (fun m pg => pg.foldl pass1Line m) []

/-! ### Pass 2: question detection and the section state machine -/

/-- `re.match(r'^(\d+)\.\s*(.+)', line)` (source line 247), including the
regex backtracking that surrenders one whitespace character to `.+` when the
text after the dot is all whitespace. -/
def parseQNum (l : String) : Option (Nat × String) :=
  let cs := l.data
  let ds := cs.takeWhile Char.isDigit
  if ds.isEmpty then none
  else
    match cs.drop ds.length with
    | '.' :: r =>
      if r.isEmpty then none
      else
        let t := r.dropWhile isSpc
        if t.isEmpty then
          match r.reverse with
          | c :: _ => some (natOfDigits ds, ⟨[c]⟩)
          | [] => none
        else some (natOfDigits ds, ⟨t⟩)
    | _ => none

/-- `re.match(r'^\d+\.\s', line)` (source lines 256 and 302): digits, a dot,
then a mandatory whitespace character. -/
def isQBoundary (l : String) : Bool :=
  let ds := l.data.takeWhile Char.isDigit
  if ds.isEmpty then false
  else
    match l.data.drop ds.length with
    | '.' :: c :: _ => isSpc c
    | _ => false

/-- Break test of the question-continuation loop (source lines 255–256). -/
def qContBreak (n : String) : Bool :=
  pyStarts "Selected" n || pyStarts "Not selected" n || pyStarts "Best Practices" n ||
  pyStarts "High risk" n || pyStarts "Medium risk" n || pyStarts "Low risk" n ||
  pyStarts "No improvements" n || pyStarts "Unanswered" n || isQBoundary n

/-- The multi-line question-text continuation loop (source lines 253–260):
accumulate onto `q_text` and also return the unconsumed remainder. -/
def collectQ : List String → String → String × List String
  | [], qt => (qt, [])
  | l :: ls, qt =>
    let n := pyStrip l
    if qContBreak n then (qt, l :: ls)
    else collectQ ls
      (if n ≠ "" ∧ n.length > 3 ∧ n ≠ "Unanswered" then qt ++ " " ++ n else qt)

/-- `re.sub(r'\s*(Unanswered|Not Applicable)\s*$', '', q_text)` followed by
`q_text.strip()` (source lines 263–264). -/
def cleanQText (s : String) : String :=
  let t := pyRStrip s
  if pyEnds "Unanswered" t then pyStrip (pyRStrip (dropRightStr t 10))
  else if pyEnds "Not Applicable" t then pyStrip (pyRStrip (dropRightStr t 14))
  else pyStrip s

/-- The keyword fallback for the current pillar (source lines 274–286);
`'select Regions'` is compared against lower-cased text exactly as in the
source (and hence can never match). -/
def fallbackPillar (cur : Option String) (qn : Nat) (qt : String) : Option String :=
  let low := lowerStr qt
  if qn ≤ 11 ∧ cur = none then some "Operational Excellence"
  else if subIn "securely operate" low || subIn "security" low then some "Security"
  else if subIn "service quotas" low || subIn "network topology" low then some "Reliability"
  else if subIn "appropriate cloud resources" low || subIn "compute resources" low then
    some "Performance Efficiency"
  else if subIn "financial management" low || subIn "cost" low then some "Cost Optimization"
  else if subIn "select Regions" low || subIn "sustainability" low then some "Sustainability"
  else cur

/-- The section-and-bucket part of the per-question scan state (the Python
locals `section`, `selected_choices`, `not_selected_choices`, `na_choices`,
`improvement_plans`, `notes`; source lines 292–300). -/
structure SectSt where
  sect : String
  selected : List String
  notSelected : List String
  na : List String
  plans : List String
  notes : List String
deriving DecidableEq

/-- The full per-question scan state: the buckets plus the Python local
`question_risk_level`, which is updated by its own if-chain. -/
structure ScanSt where
  buckets : SectSt
  risk : String
deriving DecidableEq

def initScan : ScanSt := ⟨⟨"none", [], [], [], [], []⟩, ""⟩

/-- The risk-level update of one scanned line (source lines 305–313). -/
def riskOf (r : String) (l : String) : String :=
  if subIn "High risk" l then "High Risk"
  else if subIn "Medium risk" l then "Medium Risk"
  else if subIn "Low risk" l then "Low Risk"
  else if subIn "No improvements identified" l then ""
  else r

/-- `any(x in next_line for x in ['Selected', 'Not selected', 'Best
Practices', 'Notes', 'Improvement'])` (source lines 334–339). -/
def anyMarker (l : String) : Bool :=
  subIn "Selected" l || subIn "Not selected" l || subIn "Best Practices" l ||
  subIn "Notes" l || subIn "Improvement" l

/-- The marker list used for the notes bucket (source line 340), which omits
`'Notes'`. -/
def anyMarkerNotes (l : String) : Bool :=
  subIn "Selected" l || subIn "Not selected" l || subIn "Best Practices" l ||
  subIn "Improvement" l

/-- `re.match(r'.*Page \d+ of \d+', line)` (source line 346): does the line
contain `Page <digits> of <digits>`? -/
def hasPageOf (s : String) : Bool :=
  go s.data
where
  chk (cs : List Char) : Bool :=
    if ("Page ".data).isPrefixOf cs then
      let r := cs.drop 5
      let ds := r.takeWhile Char.isDigit
      if ds.isEmpty then false
      else
        let r2 := r.drop ds.length
        if (" of ".data).isPrefixOf r2 then
          !((r2.drop 4).takeWhile Char.isDigit).isEmpty
        else false
    else false
  go : List Char → Bool
    | [] => false
    | c :: cs => chk (c :: cs) || go cs

/-- `improvement_plans[-1] += " " + next_line` (source line 355). -/
def appendLast (xs : List String) (s : String) : List String :=
  match xs with
  | [] => []
  | [x] => [x ++ " " ++ s]
  | x :: rest => x :: appendLast rest s

/-- The general boilerplate test (source lines 329–332), with Python's
`and`-over-`or` precedence. -/
def isBoiler (l : String) : Bool :=
  subIn "© 2025, Amazon Web Services" l || (subIn "Page" l && subIn "of" l) ||
  subIn "Answer the question to view the improvement plan." l || subIn "Ask an expert" l

/-- The improvement-branch acceptance test (source lines 343–348). -/
def planOk (l : String) : Bool :=
  ¬ subIn "Ask an expert" l ∧ ¬ subIn "Answer the question to view" l ∧
  ¬ subIn "© 2025, Amazon Web Services" l ∧ ¬ hasPageOf l ∧
  ¬ subIn "No risk detected for this question. No action needed" l ∧ l.length > 10

/-- Whether a line opens a new improvement item (source line 350):
`next_line[0].isupper() or not improvement_plans` (ASCII upper-case test;
the guard `l.length > 10` of `planOk` makes the head total). -/
def headUpper (l : String) : Bool :=
  match l.data with
  | c :: _ => c.isUpper
  | [] => false

/-- The section/data dispatch of one scanned line (source lines 315–355),
applied after the risk update. -/
def sectStep (st : SectSt) (l : String) : SectSt :=
  if subIn "Selected choice(s)" l then { st with sect := "selected" }
  else if subIn "Not selected choice(s)" l then { st with sect := "not_selected" }
  else if subIn "Best Practices marked as Not Applicable" l then { st with sect := "na" }
  else if subIn "Notes" l ∧ l.length < 10 then { st with sect := "notes" }
  else if subIn "Improvement plan" l then { st with sect := "improvement" }
  else if l = "-" ∨ l = "Unanswered" then st
  else if l ≠ "" ∧ l.length > 5 then
    if isBoiler l then st
    else if st.sect = "selected" ∧ ¬ anyMarker l then
      { st with selected := st.selected ++ [l] }
    else if st.sect = "not_selected" ∧ ¬ anyMarker l then
      { st with notSelected := st.notSelected ++ [l] }
    else if st.sect = "na" ∧ ¬ anyMarker l then
      { st with na := st.na ++ [l] }
    else if st.sect = "notes" ∧ ¬ anyMarkerNotes l then
      { st with notes := st.notes ++ [l] }
    else if st.sect = "improvement" then
      if planOk l then
        if headUpper l ∨ st.plans = [] then { st with plans := st.plans ++ [l] }
        else { st with plans := appendLast st.plans l }
      else st
    else st
  else st

/-- Process one line of the question body: the risk if-chain (lines 305–313)
and then the section/data if-chain (lines 315–355), both over the stripped
line. -/
def scanLine (st : ScanSt) (raw : String) : ScanSt :=
  ⟨sectStep st.buckets (pyStrip raw), riskOf st.risk (pyStrip raw)⟩

/-- The question-body loop (source lines 302–357): consume lines until one
matches `^\d+\.\s`, returning the final state and the unconsumed remainder. -/
def scanBody : List String → ScanSt → ScanSt × List String
  | [], st => (st, [])
  | l :: ls, st =>
    if isQBoundary (pyStrip l) then (st, l :: ls)
    else scanBody ls (scanLine st l)

/-! ### Question assembly -/

/-- `filter_none_of_these` (source lines 360–363). -/
def filter_none_of_these (choices : List String) (other_choices_exist : Bool) : List String :=
  if other_choices_exist then choices.filter (fun c => ¬ subIn "None of these" c)
  else choices

/-- The cross-bucket "None of these" suppression stage (source lines 359–372):
when any of the three buckets holds a substantive choice, the filter is
applied to all three buckets. -/
def noneFilterStage (sel nsel na : List String) :
    List String × List String × List String :=
  let hasS := sel.any (fun c => ¬ subIn "None of these" c)
  let hasN := nsel.any (fun c => ¬ subIn "None of these" c)
  let hasA := na.any (fun c => ¬ subIn "None of these" c)
  if hasS || hasN || hasA then
    (filter_none_of_these sel true, filter_none_of_these nsel true,
     filter_none_of_these na true)
  else (sel, nsel, na)

/-- Match `Page \d+ of \d+` at the head of a character list, returning the
remainder after the (greedy) match. -/
def pageOfAt (cs : List Char) : Option (List Char) :=
  if ("Page ".data).isPrefixOf cs then
    let r := cs.drop 5
    let ds := r.takeWhile Char.isDigit
    if ds.isEmpty then none
    else
      let r2 := r.drop ds.length
      if (" of ".data).isPrefixOf r2 then
        let ds2 := (r2.drop 4).takeWhile Char.isDigit
        if ds2.isEmpty then none else some ((r2.drop 4).drop ds2.length)
      else none
  else none

/-- `re.sub(r'Page \d+ of \d+', '', s)` (source line 396). -/
def reSubPageOfGo : Nat → List Char → List Char
  | _, [] => []
  | 0, l => l
  | fuel + 1, c :: cs =>
    match pageOfAt (c :: cs) with
    | some rest => reSubPageOfGo fuel rest
    | none => c :: reSubPageOfGo fuel cs

def reSubPageOf (s : String) : String := ⟨reSubPageOfGo s.data.length s.data⟩

/-- Minimal completion of the lazy `.*?All rights reserved\.` tail: the
remainder after the earliest occurrence of the literal that `.` can reach
(no newline in between). -/
def lazyUntilARR : List Char → Option (List Char)
  | [] => none
  | c :: cs =>
    if ("All rights reserved.".data).isPrefixOf (c :: cs) then
      some ((c :: cs).drop "All rights reserved.".data.length)
    else if c = '\n' then none
    else lazyUntilARR cs

/-- Match `© \d+, Amazon Web Services.*?All rights reserved\.` at the head of
a character list, returning the remainder after the match. -/
def copyAt (cs : List Char) : Option (List Char) :=
  if ("© ".data).isPrefixOf cs then
    let r := cs.drop 2
    let ds := r.takeWhile Char.isDigit
    if ds.isEmpty then none
    else
      let r2 := r.drop ds.length
      if (", Amazon Web Services".data).isPrefixOf r2 then
        lazyUntilARR (r2.drop ", Amazon Web Services".data.length)
      else none
  else none

/-- `re.sub(r'© \d+, Amazon Web Services.*?All rights reserved\.', '', s)`
(source line 395). -/
def reSubCopyGo : Nat → List Char → List Char
  | _, [] => []
  | 0, l => l
  | fuel + 1, c :: cs =>
    match copyAt (c :: cs) with
    | some rest => reSubCopyGo fuel rest
    | none => c :: reSubCopyGo fuel cs

def reSubCopy (s : String) : String := ⟨reSubCopyGo s.data.length s.data⟩

/-- Cleaning of one improvement-plan line (source lines 394–397). -/
def cleanPlan (p : String) : String :=
  pyStrip (reSubPageOf (reSubCopy (pyReplace p "Ask an expert" "")))

/-- The choice assembly of one question (source lines 424–441): all selected
choices, then all not-selected choices, then all not-applicable ones, with
their literal status strings. -/
def bucketChoices (sel nsel nax : List String) : List Choice :=
  sel.map (fun c => Choice.mk c "✅ Selected") ++
  nsel.map (fun c => Choice.mk c "⚠️ Not Selected") ++
  nax.map (fun c => Choice.mk c "Not Applicable")

/-- `PDFDataSource.extract_improvement_plan_with_smart_urls`, question
assembly for one detected question (source lines 359–459). -/
def mkQuestionData (getUrls : String → List (String × String))
    (pageUrls : List String) (cur2 : Option String) (usedProper : Bool)
    (pabbrev : String) (qn : Nat) (qt : String) (sst : ScanSt) : QuestionData :=
  let f := noneFilterStage sst.buckets.selected sst.buckets.notSelected sst.buckets.na
  let sel := f.1
  let nsel := f.2.1
  let nax := f.2.2
  let qid :=
    if usedProper then pabbrev ++ "-" ++ pad2 qn
    else abbrevOfPillar cur2 ++ "-" ++ pad2 qn
  let cleanPlans := (sst.buckets.plans.map cleanPlan).filter (fun c => c ≠ "" ∧ c.length > 5)
  let overallRisk := if nsel.isEmpty then "" else sst.risk
  let choices0 := bucketChoices sel nsel nax
  let items := cleanPlans.map
    (fun p => (p, match_improvement_item_to_url getUrls p pageUrls))
  { question_id := qid
    pillar := cur2
    question := qt
    risk_level := overallRisk
    notes := joinWith "\n" sst.buckets.notes
    improvement_plan := joinWith "\n" cleanPlans
    choices :=
      if choices0.isEmpty then
        [Choice.mk "Assessment not completed - no choices identified" "⚠️ Not Selected"]
      else choices0
    stats :=
      if choices0.isEmpty then ⟨0, 1, 0⟩
      else ⟨sel.length, nsel.length, nax.length⟩
    improvement_items := items }

/-- Resolution of the current pillar for one detected question (source lines
266–286): the pass-1 map wins and marks the question as carrying a proper id
(returning its abbreviation); otherwise the keyword fallback updates the
running pillar.  Result: (current pillar, used_proper_id, pillar_abbrev). -/
def pass2Cur (pm : PillarMap) (cur : Option String) (qn : Nat) (qt : String) :
    Option String × Bool × String :=
  match lookupPM pm (qn, keyWords qt) with
  | some (pname, pab) => (some pname, true, pab)
  | none => (fallbackPillar cur qn qt, false, "")

/-- Pass 2 over the lines of one page (source lines 236–470).  Fuel bounds
the recursion; `fuel = length of the lines` is always sufficient because
every step consumes at least one line and the loops only advance. -/
def pass2Go (pm : PillarMap) (getUrls : String → List (String × String))
    (pageUrls : List String) :
    Nat → List String → Option String → Pillars → Option String × Pillars
  | 0, _, cur, ps => (cur, ps)
  | _ + 1, [], cur, ps => (cur, ps)
  | fuel + 1, l :: ls, cur, ps =>
    match parseQNum (pyStrip l) with
    | none => pass2Go pm getUrls pageUrls fuel ls cur ps
    | some (qn, qt0) =>
      pass2Go pm getUrls pageUrls fuel
        (scanBody (collectQ ls qt0).2 initScan).2
        (pass2Cur pm cur qn (cleanQText (collectQ ls qt0).1)).1
        (finishQuestion (pass2Cur pm cur qn (cleanQText (collectQ ls qt0).1)).1
          (mkQuestionData getUrls pageUrls
            (pass2Cur pm cur qn (cleanQText (collectQ ls qt0).1)).1
            (pass2Cur pm cur qn (cleanQText (collectQ ls qt0).1)).2.1
            (pass2Cur pm cur qn (cleanQText (collectQ ls qt0).1)).2.2
            qn (cleanQText (collectQ ls qt0).1)
            (scanBody (collectQ ls qt0).2 initScan).1)
          ps)

/-- One page of pass 2: the page's own hyperlink list plays the role of
`hyperlinks_by_page.get(page_num, [])`. -/
def pass2Page (pm : PillarMap) (getUrls : String → List (String × String))
    (st : Option String × Pillars) (page : List String × List String) :
    Option String × Pillars :=
  pass2Go pm getUrls page.2 page.1.length page.1 st.1 st.2

/-- `PDFDataSource.extract_improvement_plan_with_smart_urls` over the pages of
the PDF, each given as (text lines, annotation hyperlink URIs). -/
def extract_improvement_plan_with_smart_urls
    (getUrls : String → List (String × String))
    (pages : List (List String × List String)) : Pillars :=
  (pages.foldl (pass2Page (pass1 (pages.map Prod.fst)) getUrls)
    ((none : Option String), initPillars)).2

/-! ## Helper lemmas -/

theorem lookupProp_insertProp (props : List (String × String)) (k v : String) :
    lookupProp (insertProp props k v) k = some v := by
  induction props with
  | nil => simp [insertProp, lookupProp]
  | cons kv rest ih =>
    obtain ⟨k0, v0⟩ := kv
    by_cases h : k0 = k
    · simp [insertProp, lookupProp, h]
    · simp [insertProp, lookupProp, h, ih]

theorem collectUntil_append (stops : List String) (stop : String) (hs : stop ∈ stops)
    (cs rest : List String) (hcs : ∀ c ∈ cs, c ∉ stops) :
    collectUntil stops (cs ++ stop :: rest) =
      (cs.filter (fun c => !isNoiseProp c), stop :: rest) := by
  induction cs with
  | nil => simp [collectUntil, hs]
  | cons c cs ih =>
    have hc : c ∉ stops := hcs c (by simp)
    have ih2 := ih (fun x hx => hcs x (by simp [hx]))
    by_cases hn : isNoiseProp c
    · simp [collectUntil, hc, ih2, hn]
    · simp [collectUntil, hc, ih2, hn]

/-! ## Claim C7 -/

/-- Claim C7: for every table-of-contents JSON tree, `get_wa_framework_urls`
returns the flattening in which each node's (title, absolute-url) pair appears
after all pairs of its children subtree (children recorded before the parent),
and on any network or parse failure it returns the empty list. -/
theorem C7_toc_flattening :
    (∀ base, get_wa_framework_urls base none = [])
    ∧ (∀ base fetched, get_wa_framework_urls base (some fetched) = flattenToc base fetched)
    ∧ (∀ base t h cs ts, flattenToc base (TocNode.node t h (some cs) :: ts) =
        flattenToc base cs ++ ((t, base ++ "/" ++ h) :: flattenToc base ts))
    ∧ (∀ base t h ts, flattenToc base (TocNode.node t h none :: ts) =
        (t, base ++ "/" ++ h) :: flattenToc base ts) := by
  refine ⟨fun base => rfl, fun base fetched => rfl, fun base t h cs ts => ?_,
    fun base t h ts => ?_⟩
  · simp [flattenToc]
  · simp [flattenToc]

/-! ## Claim C2 -/

/-- Claim C2 (divergence witness): the source claims (in the comment on line
172 and in the spec) that the matcher returns the url of the first candidate
title whose normalised form is a substring of the normalised item text; the
code tests the containment in the opposite direction (`item_lower in
title_lower`, line 173).  At this input the normalised title IS a substring of
the normalised item text, yet the matcher returns the empty string. -/
theorem C2_substring_direction_bug :
    subIn (normTxt "Identify alerts") (normTxt "Identify events and remediate") = true
    ∧ match_improvement_item_to_url
        (fun _ => [("Identify alerts",
          "https://docs.aws.amazon.com/wellarchitected/latest/framework/identify-alerts.html")])
        "Identify events and remediate"
        ["https://docs.aws.amazon.com/wellarchitected/latest/framework/x.html"] = "" := by
  exact ⟨by decide, by decide⟩

/-! ## Claim C3 -/

/-- Claim C3 counterexample: the claim states that a "None of these" choice is
dropped from a status bucket exactly when a substantive choice exists in that
SAME bucket.  With a substantive selected choice and a not-selected bucket
containing only "None of these", the claim predicts the not-selected bucket is
retained; the code (lines 365–372 gate the filter on all three buckets
jointly) empties it. -/
theorem C3_same_bucket_counterexample :
    noneFilterStage ["Option A"] ["None of these"] [] = (["Option A"], [], [])
    ∧ (noneFilterStage ["Option A"] ["None of these"] []).2.1 ≠ ["None of these"] := by
  exact ⟨by decide, by decide⟩

/-- Claim C3 (amended): "None of these" choices are dropped from every status
bucket exactly when at least one substantive choice exists in ANY of the three
buckets of the question; in particular a bucket [Option A, None of these]
becomes [Option A], and a question whose only choice across all buckets is
"None of these" retains it. -/
theorem C3_none_of_these_suppression :
    (∀ sel nsel na : List String,
      (sel.any (fun c => ¬ subIn "None of these" c)
        || nsel.any (fun c => ¬ subIn "None of these" c)
        || na.any (fun c => ¬ subIn "None of these" c)) = true →
      noneFilterStage sel nsel na =
        (sel.filter (fun c => ¬ subIn "None of these" c),
         nsel.filter (fun c => ¬ subIn "None of these" c),
         na.filter (fun c => ¬ subIn "None of these" c)))
    ∧ (∀ sel nsel na : List String,
      (sel.any (fun c => ¬ subIn "None of these" c)
        || nsel.any (fun c => ¬ subIn "None of these" c)
        || na.any (fun c => ¬ subIn "None of these" c)) = false →
      noneFilterStage sel nsel na = (sel, nsel, na))
    ∧ noneFilterStage ["Option A", "None of these"] [] [] = (["Option A"], [], [])
    ∧ noneFilterStage [] ["None of these"] [] = ([], ["None of these"], []) := by
  refine ⟨fun sel nsel na h => ?_, fun sel nsel na h => ?_, by decide, by decide⟩
  · simp only [noneFilterStage, filter_none_of_these, h, if_true]
  · simp only [noneFilterStage, filter_none_of_these, h]
    simp

/-- Witness for the amended C3 theorem at a concrete input. -/
theorem C3_none_of_these_suppression_witness :
    noneFilterStage ["Option A"] ["None of these"] [] =
      (["Option A"].filter (fun c => ¬ subIn "None of these" c),
       ["None of these"].filter (fun c => ¬ subIn "None of these" c),
       ([] : List String).filter (fun c => ¬ subIn "None of these" c)) :=
  C3_none_of_these_suppression.1 ["Option A"] ["None of these"] [] (by decide)

/-! ## Claim C8 -/

/-- Claim C8: in the property-block parser the ARN and Description labels
consume continuation lines up to the next expected label (skipping page-noise
lines), ARN parts joined with no separator and Description parts joined with a
space; in particular the concrete four-line sequence of the claim yields the
concatenated ARN, with the parser positioned on a fresh Description label. -/
theorem C8_property_continuation :
    (∀ (fuel : Nat) (v : String) (cs rest : List String) (acc : List (String × String)),
      v ∉ propLabels → v ≠ "-" → isNoiseProp v = false →
      (∀ c ∈ cs, c ∉ (["Description", "Review owner"] : List String)) →
      scanProps (fuel + 2) ("ARN" :: v :: (cs ++ "Description" :: rest)) none acc =
        scanProps fuel ("Description" :: rest) none
          (insertProp acc "ARN" (joinWith "" (v :: cs.filter (fun c => !isNoiseProp c)))))
    ∧ (∀ (fuel : Nat) (v : String) (cs rest : List String) (acc : List (String × String)),
      v ∉ propLabels → v ≠ "-" → isNoiseProp v = false →
      (∀ c ∈ cs, c ∉ (["Review owner", "Industry type"] : List String)) →
      scanProps (fuel + 2) ("Description" :: v :: (cs ++ "Review owner" :: rest)) none acc =
        scanProps fuel ("Review owner" :: rest) none
          (insertProp acc "Description" (joinWith " " (v :: cs.filter (fun c => !isNoiseProp c)))))
    ∧ scanProps 4 ["ARN", "arn:aws:wellarchitected:",
        "us-east-1:123456789012:workload/abc", "Description"] none [] =
        ([("ARN", "arn:aws:wellarchitected:us-east-1:123456789012:workload/abc")],
          some "Description") := by
  refine ⟨fun fuel v cs rest acc hlab hdash hnoise hcs => ?_,
    fun fuel v cs rest acc hlab hdash hnoise hcs => ?_, by decide⟩
  · have h1 : isNoiseProp "ARN" = false := by decide
    have h2 : "ARN" ∈ propLabels := by decide
    have h3 := collectUntil_append ["Description", "Review owner"] "Description"
      (by decide) cs rest hcs
    simp only [scanProps, h1, Bool.false_eq_true, if_false, h2, if_true, hlab,
      if_false, hdash, ite_true, ite_false, h3, hnoise]
    simp [hdash]
  · have h1 : isNoiseProp "Description" = false := by decide
    have h2 : "Description" ∈ propLabels := by decide
    have h3 := collectUntil_append ["Review owner", "Industry type"] "Review owner"
      (by decide) cs rest hcs
    simp only [scanProps, h1, Bool.false_eq_true, if_false, h2, if_true, hlab,
      if_false, hdash, ite_true, ite_false, h3, hnoise]
    simp [hdash]

/-- Witness for C8 at the concrete line sequence of the claim. -/
theorem C8_property_continuation_witness :
    scanProps 2 ["ARN", "arn:aws:wellarchitected:",
        "us-east-1:123456789012:workload/abc", "Description"] none [] =
      scanProps 0 ["Description"] none
        [("ARN", joinWith "" ("arn:aws:wellarchitected:" ::
          (["us-east-1:123456789012:workload/abc"].filter (fun c => !isNoiseProp c))))] :=
  C8_property_continuation.1 0 "arn:aws:wellarchitected:"
    ["us-east-1:123456789012:workload/abc"] [] [] (by decide) (by decide)
    (by decide) (by decide)

/-! ## Claim C9 -/

/-- Claim C9: after the property-block scan, if the Account IDs property is
absent or equal to "-" and an ARN property exists containing a colon-delimited
12-digit sequence, the parser sets Account IDs to that 12-digit string; in
particular the concrete ARN of the claim with no Account IDs line yields
Account IDs = 123456789012. -/
theorem C9_account_id_fallback :
    (∀ (props : List (String × String)) (arn d : String),
      (lookupProp props "Account IDs" = none ∨ lookupProp props "Account IDs" = some "-") →
      lookupProp props "ARN" = some arn → findAcct12 arn = some d →
      lookupProp (postAccount props) "Account IDs" = some d)
    ∧ lookupProp (extract_workload_properties
        [["Workload properties", "ARN",
          "arn:aws:wellarchitected:us-east-1:123456789012:workload/x"]]) "Account IDs" =
        some "123456789012" := by
  refine ⟨fun props arn d h1 h2 h3 => ?_, by decide⟩
  unfold postAccount
  rw [if_pos h1, h2]
  simp only [h3]
  exact lookupProp_insertProp props "Account IDs" d

/-- Witness for C9 at the concrete ARN of the claim. -/
theorem C9_account_id_fallback_witness :
    lookupProp (postAccount
      [("ARN", "arn:aws:wellarchitected:us-east-1:123456789012:workload/x")])
      "Account IDs" = some "123456789012" :=
  C9_account_id_fallback.1
    [("ARN", "arn:aws:wellarchitected:us-east-1:123456789012:workload/x")]
    "arn:aws:wellarchitected:us-east-1:123456789012:workload/x" "123456789012"
    (Or.inl (by decide)) (by decide) (by decide)

/-! ## Claim C5 -/

/-- The synthetic two-page text stream of the end-to-end scenario. -/
def scenarioPages : List (List String × List String) :=
  [(["SEC 7.How do you classify data?"], []),
   (["7.How do you classify data?", "Selected choice(s)", "Encrypt data at rest",
     "Not selected choice(s)", "Tokenize sensitive data"], [])]

/-- The single question the scenario must produce. -/
def scenarioQ : QuestionData :=
  { question_id := "SEC-07", pillar := some "Security",
    question := "How do you classify data?", risk_level := "", notes := "",
    improvement_plan := "",
    choices := [Choice.mk "Encrypt data at rest" "✅ Selected",
                Choice.mk "Tokenize sensitive data" "⚠️ Not Selected"],
    stats := ⟨1, 1, 0⟩, improvement_items := [] }

/-- Claim C5: the two-page scenario with a pass-1 pillar-tagged header and a
later generic question line plus two choice sections produces exactly one
Question, with id SEC-07, pillar Security, one selected and one not-selected
choice, and stats (1, 1, 0). -/
theorem C5_end_to_end_scenario :
    extract_improvement_plan_with_smart_urls (fun _ => []) scenarioPages =
      [("Operational Excellence", []), ("Security", [scenarioQ]), ("Reliability", []),
       ("Performance Efficiency", []), ("Cost Optimization", []), ("Sustainability", [])] := by
  decide

/-! ## Invariant machinery for the extraction output -/

theorem mem_appendPillar {ps : Pillars} {name : String} {qd : QuestionData}
    {p : String} {qs : List QuestionData} {q : QuestionData}
    (h : (p, qs) ∈ appendPillar ps name qd) (hq : q ∈ qs) :
    (∃ qs0, (p, qs0) ∈ ps ∧ q ∈ qs0) ∨ q = qd := by
  unfold appendPillar at h
  rcases List.mem_map.1 h with ⟨⟨k, v⟩, hkv, heq⟩
  by_cases hk : k = name
  · rw [if_pos hk] at heq
    simp only [Prod.mk.injEq] at heq
    obtain ⟨h1, h2⟩ := heq
    subst h1
    rcases List.mem_append.1 (h2 ▸ hq) with hv | hqd
    · exact Or.inl ⟨v, hkv, hv⟩
    · exact Or.inr (List.mem_singleton.1 hqd)
  · rw [if_neg hk] at heq
    simp only [Prod.mk.injEq] at heq
    obtain ⟨h1, h2⟩ := heq
    subst h1; subst h2
    exact Or.inl ⟨v, hkv, hq⟩

theorem finishQuestion_inv {P : QuestionData → Prop} {cur : Option String}
    {qd : QuestionData} {ps : Pillars}
    (hps : ∀ p qs q, (p, qs) ∈ ps → q ∈ qs → P q) (hqd : P qd) :
    ∀ p qs q, (p, qs) ∈ finishQuestion cur qd ps → q ∈ qs → P q := by
  intro p qs q h hq
  cases cur with
  | none => exact hps p qs q h hq
  | some s =>
    have h2 : (p, qs) ∈ (if s = "" then ps else appendPillar ps s qd) := h
    by_cases hs : s = ""
    · rw [if_pos hs] at h2
      exact hps p qs q h2 hq
    · rw [if_neg hs] at h2
      rcases mem_appendPillar h2 hq with ⟨qs0, h0, hq0⟩ | rfl
      · exact hps p qs0 q h0 hq0
      · exact hqd

theorem pass2Go_inv {P : QuestionData → Prop}
    (hmk : ∀ gu pu c2 u ab qn qt sst, P (mkQuestionData gu pu c2 u ab qn qt sst))
    (pm : PillarMap) (gu : String → List (String × String)) (pu : List String) :
    ∀ (fuel : Nat) (lines : List String) (cur : Option String) (ps : Pillars),
      (∀ p qs q, (p, qs) ∈ ps → q ∈ qs → P q) →
      ∀ p qs q, (p, qs) ∈ (pass2Go pm gu pu fuel lines cur ps).2 → q ∈ qs → P q := by
  intro fuel
  induction fuel with
  | zero =>
    intro lines cur ps hps p qs q h hq
    exact hps p qs q h hq
  | succ fuel ih =>
    intro lines cur ps hps p qs q h hq
    cases lines with
    | nil => exact hps p qs q h hq
    | cons l ls =>
      rw [pass2Go] at h
      cases hpq : parseQNum (pyStrip l) with
      | none =>
        rw [hpq] at h
        exact ih ls cur ps hps p qs q h hq
      | some pr =>
        rw [hpq] at h
        obtain ⟨qn, qt0⟩ := pr
        exact ih _ _ _ (finishQuestion_inv hps (hmk _ _ _ _ _ _ _ _)) p qs q h hq

theorem extract_inv {P : QuestionData → Prop}
    (hmk : ∀ gu pu c2 u ab qn qt sst, P (mkQuestionData gu pu c2 u ab qn qt sst))
    (gu : String → List (String × String)) (pages : List (List String × List String)) :
    ∀ p qs q, (p, qs) ∈ extract_improvement_plan_with_smart_urls gu pages →
      q ∈ qs → P q := by
  unfold extract_improvement_plan_with_smart_urls
  generalize pass1 (pages.map Prod.fst) = pm
  have main : ∀ (pgs : List (List String × List String)) (st : Option String × Pillars),
      (∀ p qs q, (p, qs) ∈ st.2 → q ∈ qs → P q) →
      ∀ p qs q, (p, qs) ∈ (pgs.foldl (pass2Page pm gu) st).2 → q ∈ qs → P q := by
    intro pgs
    induction pgs with
    | nil => intro st hst; exact hst
    | cons pg rest ihp =>
      intro st hst
      exact ihp _ (pass2Go_inv hmk pm gu pg.2 pg.1.length pg.1 st.1 st.2 hst)
  refine main pages (none, initPillars) ?_
  intro p qs q hmem hq
  simp only [initPillars, List.mem_cons, List.mem_singleton, Prod.mk.injEq,
    List.not_mem_nil, or_false] at hmem
  rcases hmem with ⟨_, rfl⟩ | ⟨_, rfl⟩ | ⟨_, rfl⟩ | ⟨_, rfl⟩ | ⟨_, rfl⟩ | ⟨_, rfl⟩ <;>
    exact absurd hq (List.not_mem_nil q)

theorem keys_appendPillar (ps : Pillars) (name : String) (qd : QuestionData) :
    (appendPillar ps name qd).map Prod.fst = ps.map Prod.fst := by
  unfold appendPillar
  rw [List.map_map]
  apply List.map_congr_left
  intro kv _
  by_cases h : kv.1 = name <;> simp [h]

theorem keys_finishQuestion (cur : Option String) (qd : QuestionData) (ps : Pillars) :
    (finishQuestion cur qd ps).map Prod.fst = ps.map Prod.fst := by
  cases cur with
  | none => rfl
  | some s =>
    have he : finishQuestion (some s) qd ps = if s = "" then ps else appendPillar ps s qd := rfl
    rw [he]
    by_cases hs : s = ""
    · rw [if_pos hs]
    · rw [if_neg hs]
      exact keys_appendPillar ps s qd

theorem keys_pass2Go (pm : PillarMap) (gu : String → List (String × String))
    (pu : List String) :
    ∀ (fuel : Nat) (lines : List String) (cur : Option String) (ps : Pillars),
      ((pass2Go pm gu pu fuel lines cur ps).2).map Prod.fst = ps.map Prod.fst := by
  intro fuel
  induction fuel with
  | zero => intro lines cur ps; rfl
  | succ fuel ih =>
    intro lines cur ps
    cases lines with
    | nil => rfl
    | cons l ls =>
      rw [pass2Go]
      cases hpq : parseQNum (pyStrip l) with
      | none => exact ih ls cur ps
      | some pr =>
        obtain ⟨qn, qt0⟩ := pr
        exact (ih _ _ _).trans (keys_finishQuestion _ _ _)

theorem keys_extract (gu : String → List (String × String))
    (pages : List (List String × List String)) :
    (extract_improvement_plan_with_smart_urls gu pages).map Prod.fst =
      ["Operational Excellence", "Security", "Reliability",
       "Performance Efficiency", "Cost Optimization", "Sustainability"] := by
  unfold extract_improvement_plan_with_smart_urls
  generalize pass1 (pages.map Prod.fst) = pm
  have main : ∀ (pgs : List (List String × List String)) (st : Option String × Pillars),
      ((pgs.foldl (pass2Page pm gu) st).2).map Prod.fst = st.2.map Prod.fst := by
    intro pgs
    induction pgs with
    | nil => intro st; rfl
    | cons pg rest ihp =>
      intro st
      rw [List.foldl_cons, ihp]
      exact keys_pass2Go pm gu pg.2 pg.1.length pg.1 st.1 st.2
  rw [main pages (none, initPillars)]
  rfl

theorem bucketChoices_length (s n a : List String) :
    (bucketChoices s n a).length = s.length + n.length + a.length := by
  simp [bucketChoices, Nat.add_assoc]

theorem bucketChoices_empty_iff (s n a : List String) :
    (bucketChoices s n a).isEmpty = true ↔ s = [] ∧ n = [] ∧ a = [] := by
  simp [bucketChoices, List.isEmpty_iff]

theorem mem_bucketChoices {c : Choice} {s n a : List String}
    (h : c ∈ bucketChoices s n a) :
    (c.choice ∈ s ∧ c.status = "✅ Selected")
    ∨ (c.choice ∈ n ∧ c.status = "⚠️ Not Selected")
    ∨ (c.choice ∈ a ∧ c.status = "Not Applicable") := by
  unfold bucketChoices at h
  rcases List.mem_append.1 h with h1 | h2
  · rcases List.mem_append.1 h1 with hs | hn
    · obtain ⟨x, hx, rfl⟩ := List.mem_map.1 hs
      exact Or.inl ⟨hx, rfl⟩
    · obtain ⟨x, hx, rfl⟩ := List.mem_map.1 hn
      exact Or.inr (Or.inl ⟨hx, rfl⟩)
  · obtain ⟨x, hx, rfl⟩ := List.mem_map.1 h2
    exact Or.inr (Or.inr ⟨hx, rfl⟩)

/-! ## Claim C1 -/

theorem mkQuestionData_stats (gu : String → List (String × String)) (pu : List String)
    (c2 : Option String) (u : Bool) (ab : String) (qn : Nat) (qt : String) (sst : ScanSt) :
    (mkQuestionData gu pu c2 u ab qn qt sst).stats.selected
      + (mkQuestionData gu pu c2 u ab qn qt sst).stats.not_selected
      + (mkQuestionData gu pu c2 u ab qn qt sst).stats.na
      = (mkQuestionData gu pu c2 u ab qn qt sst).choices.length
    ∧ 1 ≤ (mkQuestionData gu pu c2 u ab qn qt sst).choices.length := by
  simp only [mkQuestionData]
  split_ifs with hb
  · exact ⟨rfl, le_refl 1⟩
  · constructor
    · simp [bucketChoices_length, Nat.add_assoc]
    · have hne : ¬(bucketChoices (noneFilterStage sst.buckets.selected sst.buckets.notSelected sst.buckets.na).1
          (noneFilterStage sst.buckets.selected sst.buckets.notSelected sst.buckets.na).2.1
          (noneFilterStage sst.buckets.selected sst.buckets.notSelected sst.buckets.na).2.2).isEmpty = true := hb
      rw [List.isEmpty_iff] at hne
      exact List.length_pos.mpr hne

/-- Claim C1: for every Question record produced by
`extract_improvement_plan_with_smart_urls`, stats.selected + stats.not_selected
+ stats.na equals the number of choices, and at least one choice exists; when
no choices were identified for a question, a single placeholder choice is
synthesized carrying the not-selected status, with stats (0, 1, 0). -/
theorem C1_stats_invariant :
    (∀ (gu : String → List (String × String)) (pages : List (List String × List String))
       (p : String) (qs : List QuestionData) (q : QuestionData),
       (p, qs) ∈ extract_improvement_plan_with_smart_urls gu pages → q ∈ qs →
       q.stats.selected + q.stats.not_selected + q.stats.na = q.choices.length
       ∧ 1 ≤ q.choices.length)
    ∧ (∀ (gu : String → List (String × String)) (pu : List String)
       (c2 : Option String) (u : Bool) (ab : String) (qn : Nat) (qt : String) (sst : ScanSt),
       noneFilterStage sst.buckets.selected sst.buckets.notSelected sst.buckets.na = ([], [], []) →
       (mkQuestionData gu pu c2 u ab qn qt sst).choices =
         [Choice.mk "Assessment not completed - no choices identified" "⚠️ Not Selected"]
       ∧ (mkQuestionData gu pu c2 u ab qn qt sst).stats = ⟨0, 1, 0⟩) := by
  constructor
  · exact fun gu pages =>
      @extract_inv
        (fun q => q.stats.selected + q.stats.not_selected + q.stats.na = q.choices.length
          ∧ 1 ≤ q.choices.length)
        (fun gu pu c2 u ab qn qt sst => mkQuestionData_stats gu pu c2 u ab qn qt sst)
        gu pages
  · intro gu pu c2 u ab qn qt sst hf
    simp only [mkQuestionData, hf]
    have hb : (bucketChoices ([] : List String) [] []).isEmpty = true := rfl
    simp [hb]

/-- Witness for C1 at the concrete scenario extraction. -/
theorem C1_stats_invariant_witness :
    scenarioQ.stats.selected + scenarioQ.stats.not_selected + scenarioQ.stats.na =
      scenarioQ.choices.length ∧ 1 ≤ scenarioQ.choices.length :=
  C1_stats_invariant.1 (fun _ => []) scenarioPages "Security" [scenarioQ] scenarioQ
    (by decide) (by decide)

/-! ## Claim C4 -/

/-- The last risk-level marker over a run of lines: each line containing a
marker overrides the running value, a "No improvements identified" line
resets it to empty. -/
def lastRisk (r : String) : List String → String
  | [] => r
  | l :: ls => lastRisk (riskOf r (pyStrip l)) ls

theorem scanLine_risk (st : ScanSt) (raw : String) :
    (scanLine st raw).risk = riskOf st.risk (pyStrip raw) := rfl

theorem scanBody_risk : ∀ (ls : List String) (st : ScanSt),
    (scanBody ls st).1.risk =
      lastRisk st.risk (ls.takeWhile (fun l => !isQBoundary (pyStrip l))) := by
  intro ls
  induction ls with
  | nil => intro st; rfl
  | cons l ls ih =>
    intro st
    by_cases hb : isQBoundary (pyStrip l)
    · simp [scanBody, hb, List.takeWhile_cons, lastRisk]
    · simp [scanBody, hb, List.takeWhile_cons, lastRisk, ih, scanLine_risk]

theorem mkQuestionData_risk (gu : String → List (String × String)) (pu : List String)
    (c2 : Option String) (u : Bool) (ab : String) (qn : Nat) (qt : String) (sst : ScanSt) :
    ((noneFilterStage sst.buckets.selected sst.buckets.notSelected sst.buckets.na).2.1 = [] →
      (mkQuestionData gu pu c2 u ab qn qt sst).risk_level = "")
    ∧ ((noneFilterStage sst.buckets.selected sst.buckets.notSelected sst.buckets.na).2.1 ≠ [] →
      (mkQuestionData gu pu c2 u ab qn qt sst).risk_level = sst.risk) := by
  constructor
  · intro hn
    simp [mkQuestionData, hn]
  · intro hn
    simp only [mkQuestionData]
    rw [if_neg]
    simp [List.isEmpty_iff, hn]

theorem mkQuestionData_risk_gate (gu : String → List (String × String)) (pu : List String)
    (c2 : Option String) (u : Bool) (ab : String) (qn : Nat) (qt : String) (sst : ScanSt) :
    (mkQuestionData gu pu c2 u ab qn qt sst).stats.not_selected = 0 →
    (mkQuestionData gu pu c2 u ab qn qt sst).risk_level = "" := by
  simp only [mkQuestionData]
  split_ifs with hb hn hn
  · intro h; rfl
  · intro h; exact absurd h (by decide)
  · intro h; rfl
  · intro h
    rw [List.isEmpty_iff] at hn
    exact absurd (List.length_eq_zero.mp h) hn

/-- Claim C4: a question whose not-selected choice bucket is empty exposes an
empty risk_level regardless of any risk text seen in its block; a question
with a non-empty not-selected bucket exposes the risk value of its scan state,
which is the last risk-level marker seen before the next question boundary,
a "No improvements identified" line resetting it to empty. -/
theorem C4_risk_exposure_gating :
    (∀ (gu : String → List (String × String)) (pages : List (List String × List String))
       (p : String) (qs : List QuestionData) (q : QuestionData),
       (p, qs) ∈ extract_improvement_plan_with_smart_urls gu pages → q ∈ qs →
       q.stats.not_selected = 0 → q.risk_level = "")
    ∧ (∀ (ls : List String) (st : ScanSt),
       (scanBody ls st).1.risk =
         lastRisk st.risk (ls.takeWhile (fun l => !isQBoundary (pyStrip l))))
    ∧ (∀ (gu : String → List (String × String)) (pu : List String)
       (c2 : Option String) (u : Bool) (ab : String) (qn : Nat) (qt : String) (sst : ScanSt),
       ((noneFilterStage sst.buckets.selected sst.buckets.notSelected sst.buckets.na).2.1 = [] →
         (mkQuestionData gu pu c2 u ab qn qt sst).risk_level = "")
       ∧ ((noneFilterStage sst.buckets.selected sst.buckets.notSelected sst.buckets.na).2.1 ≠ [] →
         (mkQuestionData gu pu c2 u ab qn qt sst).risk_level = sst.risk)) :=
  ⟨fun gu pages =>
    @extract_inv (fun q => q.stats.not_selected = 0 → q.risk_level = "")
      (fun gu pu c2 u ab qn qt sst => mkQuestionData_risk_gate gu pu c2 u ab qn qt sst)
      gu pages,
   scanBody_risk, mkQuestionData_risk⟩

/-- A one-page stream whose single question has a selected choice, a risk
marker line, but no not-selected choices. -/
def opsPages : List (List String × List String) :=
  [(["3.How do you handle incidents?", "Selected choice(s)",
     "Encrypt data at rest", "High risk issues found"], [])]

/-- The question `opsPages` produces: the High-risk marker was seen (and that
line also lands in the selected bucket, the state machine appends any
non-marker data line to the current section), but the empty not-selected
bucket gates the exposed risk level to the empty string. -/
def opsQ : QuestionData :=
  { question_id := "OPS-03", pillar := some "Operational Excellence",
    question := "How do you handle incidents?", risk_level := "", notes := "",
    improvement_plan := "",
    choices := [Choice.mk "Encrypt data at rest" "✅ Selected",
                Choice.mk "High risk issues found" "✅ Selected"],
    stats := ⟨2, 0, 0⟩, improvement_items := [] }

/-- Witness for C4: each conjunct applied at a concrete input. -/
theorem C4_risk_exposure_gating_witness :
    (opsQ.risk_level = "")
    ∧ ((scanBody ["High risk issues found"] initScan).1.risk =
        lastRisk initScan.risk
          (["High risk issues found"].takeWhile (fun l => !isQBoundary (pyStrip l))))
    ∧ (mkQuestionData (fun _ => []) [] none false "" 1 "q"
        ⟨⟨"none", [], ["Tokenize sensitive data"], [], [], []⟩, "High Risk"⟩).risk_level =
        "High Risk" :=
  ⟨C4_risk_exposure_gating.1 (fun _ => []) opsPages "Operational Excellence" [opsQ] opsQ
      (by decide) (by decide) (by decide),
   C4_risk_exposure_gating.2.1 ["High risk issues found"] initScan,
   (C4_risk_exposure_gating.2.2 (fun _ => []) [] none false "" 1 "q"
      ⟨⟨"none", [], ["Tokenize sensitive data"], [], [], []⟩, "High Risk"⟩).2 (by decide)⟩

/-! ## Claim C6 -/

/-- All status strings occurring anywhere in an extraction result. -/
def statusesOf (ps : Pillars) : List String :=
  (ps.map (fun kv => (kv.2.map (fun q => q.choices.map Choice.status)).flatten)).flatten

/-- Claim C6 counterexample: the claim fixes the status vocabulary as
Selected / Not Selected / Not Applicable, but the scenario extraction emits a
choice whose status is the literal string with the check-mark prefix, which
equals none of the three claimed values. -/
theorem C6_status_vocabulary_counterexample :
    "✅ Selected" ∈ statusesOf
      (extract_improvement_plan_with_smart_urls (fun _ => []) scenarioPages)
    ∧ ("✅ Selected" ≠ "Selected" ∧ "✅ Selected" ≠ "Not Selected"
        ∧ "✅ Selected" ≠ "Not Applicable") := by
  exact ⟨by decide, by decide, by decide, by decide⟩

theorem mkQuestionData_status_vocab (gu : String → List (String × String))
    (pu : List String) (c2 : Option String) (u : Bool) (ab : String) (qn : Nat)
    (qt : String) (sst : ScanSt) :
    ∀ c ∈ (mkQuestionData gu pu c2 u ab qn qt sst).choices,
      c.status = "✅ Selected" ∨ c.status = "⚠️ Not Selected"
      ∨ c.status = "Not Applicable" := by
  intro c hc
  simp only [mkQuestionData] at hc
  split_ifs at hc with hb
  · rw [List.mem_singleton] at hc
    subst hc
    exact Or.inr (Or.inl rfl)
  · rcases mem_bucketChoices hc with ⟨_, h⟩ | ⟨_, h⟩ | ⟨_, h⟩
    · exact Or.inl h
    · exact Or.inr (Or.inl h)
    · exact Or.inr (Or.inr h)

/-- Claim C6 (amended): every Choice record emitted for a question has a
status drawn from the fixed vocabulary of the three literal strings the code
writes — "✅ Selected", "⚠️ Not Selected", "Not Applicable" — and the status
identifies the bucket the choice came from: selected-bucket choices get
"✅ Selected", not-selected-bucket choices "⚠️ Not Selected",
not-applicable-bucket choices "Not Applicable", and the synthesized
placeholder gets "⚠️ Not Selected". -/
theorem C6_status_vocabulary :
    (∀ (gu : String → List (String × String)) (pages : List (List String × List String))
       (p : String) (qs : List QuestionData) (q : QuestionData),
       (p, qs) ∈ extract_improvement_plan_with_smart_urls gu pages → q ∈ qs →
       ∀ c ∈ q.choices,
         c.status = "✅ Selected" ∨ c.status = "⚠️ Not Selected"
         ∨ c.status = "Not Applicable")
    ∧ (∀ (gu : String → List (String × String)) (pu : List String)
       (c2 : Option String) (u : Bool) (ab : String) (qn : Nat) (qt : String)
       (sst : ScanSt) (c : Choice), c ∈ (mkQuestionData gu pu c2 u ab qn qt sst).choices →
       (c.choice ∈ (noneFilterStage sst.buckets.selected sst.buckets.notSelected
          sst.buckets.na).1 ∧ c.status = "✅ Selected")
       ∨ (c.choice ∈ (noneFilterStage sst.buckets.selected sst.buckets.notSelected
          sst.buckets.na).2.1 ∧ c.status = "⚠️ Not Selected")
       ∨ (c.choice ∈ (noneFilterStage sst.buckets.selected sst.buckets.notSelected
          sst.buckets.na).2.2 ∧ c.status = "Not Applicable")
       ∨ (c = Choice.mk "Assessment not completed - no choices identified" "⚠️ Not Selected"
          ∧ (noneFilterStage sst.buckets.selected sst.buckets.notSelected
              sst.buckets.na).1 = []
          ∧ (noneFilterStage sst.buckets.selected sst.buckets.notSelected
              sst.buckets.na).2.1 = []
          ∧ (noneFilterStage sst.buckets.selected sst.buckets.notSelected
              sst.buckets.na).2.2 = [])) := by
  constructor
  · exact fun gu pages =>
      @extract_inv
        (fun q => ∀ c ∈ q.choices,
          c.status = "✅ Selected" ∨ c.status = "⚠️ Not Selected"
          ∨ c.status = "Not Applicable")
        (fun gu pu c2 u ab qn qt sst => mkQuestionData_status_vocab gu pu c2 u ab qn qt sst)
        gu pages
  · intro gu pu c2 u ab qn qt sst c hc
    simp only [mkQuestionData] at hc
    split_ifs at hc with hb
    · rw [List.mem_singleton] at hc
      rw [bucketChoices_empty_iff] at hb
      exact Or.inr (Or.inr (Or.inr ⟨hc, hb.1, hb.2.1, hb.2.2⟩))
    · rcases mem_bucketChoices hc with h | h | h
      · exact Or.inl h
      · exact Or.inr (Or.inl h)
      · exact Or.inr (Or.inr (Or.inl h))

/-- Witness for the amended C6 theorem at the scenario extraction. -/
theorem C6_status_vocabulary_witness :
    (Choice.mk "Encrypt data at rest" "✅ Selected").status = "✅ Selected"
    ∨ (Choice.mk "Encrypt data at rest" "✅ Selected").status = "⚠️ Not Selected"
    ∨ (Choice.mk "Encrypt data at rest" "✅ Selected").status = "Not Applicable" :=
  C6_status_vocabulary.1 (fun _ => []) scenarioPages "Security" [scenarioQ] scenarioQ
    (by decide) (by decide) (Choice.mk "Encrypt data at rest" "✅ Selected") (by decide)

/-! ## Claim C10 -/

theorem mkQuestionData_choice_order (gu : String → List (String × String))
    (pu : List String) (c2 : Option String) (u : Bool) (ab : String) (qn : Nat)
    (qt : String) (sst : ScanSt) :
    ∃ s n a, (mkQuestionData gu pu c2 u ab qn qt sst).choices = s ++ n ++ a
      ∧ (∀ c ∈ s, c.status = "✅ Selected")
      ∧ (∀ c ∈ n, c.status = "⚠️ Not Selected")
      ∧ (∀ c ∈ a, c.status = "Not Applicable") := by
  simp only [mkQuestionData]
  split_ifs with hb
  · refine ⟨[], [Choice.mk "Assessment not completed - no choices identified"
      "⚠️ Not Selected"], [], by simp, by simp, ?_, by simp⟩
    intro c hc
    rw [List.mem_singleton] at hc
    subst hc
    rfl
  · refine ⟨_, _, _, rfl, ?_, ?_, ?_⟩
    · intro c hc
      obtain ⟨x, hx, rfl⟩ := List.mem_map.1 hc
      rfl
    · intro c hc
      obtain ⟨x, hx, rfl⟩ := List.mem_map.1 hc
      rfl
    · intro c hc
      obtain ⟨x, hx, rfl⟩ := List.mem_map.1 hc
      rfl

/-- Claim C10: the pillars mapping always has exactly the six fixed pillar
names as keys, in their initialisation order; within each question the choices
list is all selected-status choices, then all not-selected-status choices,
then all not-applicable-status choices; and a detected question whose pillar
resolved to none is appended to no pillar list. -/
theorem C10_pillars_shape :
    (∀ (gu : String → List (String × String)) (pages : List (List String × List String)),
       (extract_improvement_plan_with_smart_urls gu pages).map Prod.fst =
         ["Operational Excellence", "Security", "Reliability",
          "Performance Efficiency", "Cost Optimization", "Sustainability"])
    ∧ (∀ (gu : String → List (String × String)) (pages : List (List String × List String))
       (p : String) (qs : List QuestionData) (q : QuestionData),
       (p, qs) ∈ extract_improvement_plan_with_smart_urls gu pages → q ∈ qs →
       ∃ s n a, q.choices = s ++ n ++ a
         ∧ (∀ c ∈ s, c.status = "✅ Selected")
         ∧ (∀ c ∈ n, c.status = "⚠️ Not Selected")
         ∧ (∀ c ∈ a, c.status = "Not Applicable"))
    ∧ (∀ (qd : QuestionData) (ps : Pillars), finishQuestion none qd ps = ps) :=
  ⟨keys_extract,
   fun gu pages =>
     @extract_inv
       (fun q => ∃ s n a, q.choices = s ++ n ++ a
         ∧ (∀ c ∈ s, c.status = "✅ Selected")
         ∧ (∀ c ∈ n, c.status = "⚠️ Not Selected")
         ∧ (∀ c ∈ a, c.status = "Not Applicable"))
       (fun gu pu c2 u ab qn qt sst => mkQuestionData_choice_order gu pu c2 u ab qn qt sst)
       gu pages,
   fun _ _ => rfl⟩

/-- Witness for C10 at the scenario extraction. -/
theorem C10_pillars_shape_witness :
    ∃ s n a, scenarioQ.choices = s ++ n ++ a
      ∧ (∀ c ∈ s, c.status = "✅ Selected")
      ∧ (∀ c ∈ n, c.status = "⚠️ Not Selected")
      ∧ (∀ c ∈ a, c.status = "Not Applicable") :=
  C10_pillars_shape.2.1 (fun _ => []) scenarioPages "Security" [scenarioQ] scenarioQ
    (by decide) (by decide)

end Waffel
